import Mathlib

/-!
Verification of the money-tracker Cycle Ledger and derived statistics.

The model below is a shallow embedding of the TypeScript services in
`src/services` (depenses.service.ts, the cycles service, the stats service)
and `src/lib/calculations.ts`.  Currency amounts (JavaScript numbers) are
modelled as rationals; the record store (Supabase) is modelled as an explicit
in-memory database threaded through each operation; fallible store calls are
modelled with explicit failure flags so that each error path of the source
can be exercised.  Presentation-only record fields (icons, colours, free-text
descriptions, timestamps that no verified operation reads) are omitted.
-/

namespace MoneyTracker

/-- Cycle status, `statut: 'actif' | 'cloture'` in src/types. -/
inductive Statut where
  | actif
  | cloture
deriving DecidableEq, Repr

/-- Currency label, `devise?: 'EUR' | 'USD' | 'MAD'` in src/types (label only). -/
inductive Devise where
  | EUR
  | USD
  | MAD
deriving DecidableEq, Repr

/-- `CycleMensuel` record (src/types).  `date_debut`/`date_fin` are the
millisecond timestamps the stats service feeds to `Date.getTime()`. -/
structure CycleMensuel where
  id : String
  user_id : String
  annee : Int
  mois : Int
  salaire_reel : ℚ
  total_charges : ℚ
  total_depenses : ℚ
  reste : ℚ
  statut : Statut
  devise : Devise
  date_debut : ℚ
  date_fin : ℚ
deriving DecidableEq, Repr

/-- `ChargeFix` record (src/types): a recurring monthly obligation. -/
structure ChargeFix where
  id : String
  user_id : String
  montant : ℚ
  categorie_id : String
  actif : Bool
deriving DecidableEq, Repr

/-- `Depense` record (src/types): one variable spend in one cycle. -/
structure Depense where
  id : String
  user_id : String
  cycle_id : String
  montant : ℚ
  categorie_id : String
deriving DecidableEq, Repr

/-- A store error (`Error` objects returned by the Supabase client). -/
structure Err where
  message : String
deriving DecidableEq, Repr

/-- The record store: the three tables the Cycle Ledger touches
(`cycles_mensuels`, `charges_fixes`, `depenses`). -/
structure DB where
  cycles : List CycleMensuel
  charges : List ChargeFix
  depenses : List Depense
deriving DecidableEq, Repr

/-- Fetch a cycle by id, as `from('cycles_mensuels').select().eq('id', cycleId).single()`. -/
def findCycle (db : DB) (cycleId : String) : Option CycleMensuel :=
  db.cycles.find? (fun c => c.id == cycleId)

/-- Fetch a depense by id. -/
def findDepense (db : DB) (depenseId : String) : Option Depense :=
  db.depenses.find? (fun d => d.id == depenseId)

/-- The user's active fixed charges, as
`from('charges_fixes').select('montant').eq('user_id', uid).eq('actif', true)`. -/
def chargesActives (db : DB) (userId : String) : List ChargeFix :=
  db.charges.filter (fun c => c.user_id == userId && c.actif)

/-- Sum of the user's currently-active charge amounts, as the
`activeCharges.reduce((sum, charge) => sum + montant, 0)` step of `closeCycle`. -/
def totalChargesActives (db : DB) (userId : String) : ℚ :=
  ((chargesActives db userId).map (fun c => c.montant)).foldl (· + ·) 0

/-- Apply a field update to every stored cycle matching `cycleId`, as
`from('cycles_mensuels').update(fields).eq('id', cycleId)`. -/
def applyCycleUpdate (db : DB) (cycleId : String) (f : CycleMensuel → CycleMensuel) : DB :=
  { db with cycles := db.cycles.map (fun c => if c.id == cycleId then f c else c) }

/-- `getTotalDepenses` (depenses.service.ts): sum of `montant` over the
cycle's depense rows, `data.reduce((sum, depense) => sum + depense.montant, 0) || 0`. -/
def getTotalDepenses (db : DB) (cycleId : String) : ℚ :=
  ((db.depenses.filter (fun d => d.cycle_id == cycleId)).map (fun d => d.montant)).foldl (· + ·) 0

/-- Failure flags for the three store calls inside `updateCycleTotalDepenses`
(the expense-aggregate refresh): the depense-sum fetch, the cycle fetch and
the cycle update.  All `false` means every store call succeeds. -/
structure RefreshFailures where
  totalFetch : Bool := false
  cycleFetch : Bool := false
  cycleUpdate : Bool := false
deriving DecidableEq, Repr

/-- `updateCycleTotalDepenses` (depenses.service.ts): recompute the cycle's
`total_depenses` and `reste` after an expense mutation.  Every internal
failure is swallowed (the source catches and only logs), so the function
always returns a database and never an error. -/
def updateCycleTotalDepenses (db : DB) (cycleId : String) (rf : RefreshFailures) : DB :=
  if rf.totalFetch then db
  else
    let total := getTotalDepenses db cycleId
    if rf.cycleFetch then db
    else
      match findCycle db cycleId with
      | none => db
      | some cycle =>
        let reste := cycle.salaire_reel - cycle.total_charges - total
        if rf.cycleUpdate then db
        else applyCycleUpdate db cycleId
          (fun c => { c with total_depenses := total, reste := reste })

/-- `DepenseFormData` (src/types), restricted to the fields the ledger reads. -/
structure DepenseFormData where
  montant : ℚ
  categorie_id : String
deriving DecidableEq, Repr

/-- `createDepense` (depenses.service.ts): insert the new depense, then
refresh the cycle aggregates; the refresh outcome never changes the
operation's own result. -/
def createDepense (db : DB) (userId cycleId : String) (form : DepenseFormData)
    (newId : String) (insertFails : Bool) (rf : RefreshFailures) :
    Except Err Depense × DB :=
  if insertFails then (.error ⟨"Error creating depense"⟩, db)
  else
    let depense : Depense :=
      { id := newId, user_id := userId, cycle_id := cycleId,
        montant := form.montant, categorie_id := form.categorie_id }
    let db1 : DB := { db with depenses := db.depenses ++ [depense] }
    let db2 := updateCycleTotalDepenses db1 cycleId rf
    (.ok depense, db2)

/-- Partial update payload for `updateDepense`; `none` means the field is
absent from the caller's `updates` object. -/
structure DepenseUpdates where
  montant : Option ℚ := none
  categorie_id : Option String := none
deriving DecidableEq, Repr

/-- Merge an update payload into a stored depense row. -/
def mergeDepenseUpdates (u : DepenseUpdates) (d : Depense) : Depense :=
  { d with
    montant := u.montant.getD d.montant,
    categorie_id := u.categorie_id.getD d.categorie_id }

/-- `updateDepense` (depenses.service.ts): update the row by id (`.single()`
errors when the row is absent), then refresh the cycle aggregates only when
`montant` was part of the update. -/
def updateDepense (db : DB) (depenseId : String) (updates : DepenseUpdates)
    (rf : RefreshFailures) : Except Err Depense × DB :=
  match findDepense db depenseId with
  | none => (.error ⟨"Error updating depense"⟩, db)
  | some d0 =>
    let d1 := mergeDepenseUpdates updates d0
    let db1 : DB :=
      { db with depenses :=
          db.depenses.map (fun d => if d.id == depenseId then mergeDepenseUpdates updates d else d) }
    match updates.montant with
    | some _ => (.ok d1, updateCycleTotalDepenses db1 d1.cycle_id rf)
    | none => (.ok d1, db1)

/-- `deleteDepense` (depenses.service.ts): first fetch the row's `cycle_id`
(with the error silently dropped — `preFetchFails` models that fetch failing),
then delete by id, then refresh the cycle aggregates when the pre-fetch
succeeded. -/
def deleteDepense (db : DB) (depenseId : String) (preFetchFails : Bool)
    (rf : RefreshFailures) : Except Err Depense × DB :=
  let depenseToDelete := if preFetchFails then none else findDepense db depenseId
  match findDepense db depenseId with
  | none => (.error ⟨"Error deleting depense"⟩, db)
  | some d0 =>
    let db1 : DB := { db with depenses := db.depenses.filter (fun d => !(d.id == depenseId)) }
    match depenseToDelete with
    | some d => (.ok d0, updateCycleTotalDepenses db1 d.cycle_id rf)
    | none => (.ok d0, db1)

/-- Character-list version of the `String.prototype.includes` check the
callers run on store error messages. -/
def leadsWith : List Char → List Char → Bool
  | [], _ => true
  | _ :: _, [] => false
  | p :: ps, c :: cs => p == c && leadsWith ps cs

/-- Does the haystack contain the pattern as a contiguous run? -/
def hasSubList (pat : List Char) : List Char → Bool
  | [] => leadsWith pat []
  | c :: cs => leadsWith pat (c :: cs) || hasSubList pat cs

/-- `message.includes(pat)` on a store error message. -/
def containsMarker (s pat : String) : Bool :=
  hasSubList pat.data s.data

/-- The duplicate-cycle check the repository's callers run on a failed
`createCycle`: `error.message?.includes('duplicate key') ||
error.message?.includes('23505')` (Configuration page and dashboard hook). -/
def isDuplicateKeyError (e : Err) : Bool :=
  containsMarker e.message "duplicate key" || containsMarker e.message "23505"

/-- Modelled from the spec: the record store's uniqueness constraint on
cycles — "exactly one cycle per (user, year, month) — duplicate creation
must fail".  The database schema that declares this unique constraint is not
under src/ (only the callers that match its `duplicate key` / `23505` error
text are), so the insert primitive is modelled here: it rejects a row that
collides with a stored cycle's (user_id, annee, mois) with the store's
duplicate-key error, and otherwise appends the row. -/
def insertCycle (db : DB) (c : CycleMensuel) : Except Err CycleMensuel × DB :=
  if db.cycles.any (fun c0 => c0.user_id == c.user_id && c0.annee == c.annee && c0.mois == c.mois) then
    (.error ⟨"duplicate key value violates unique constraint (code 23505)"⟩, db)
  else
    (.ok c, { db with cycles := db.cycles ++ [c] })

/-- `createCycle` (cycles service): build the new cycle record with
`total_depenses = 0`, `reste = salaire - totalCharges`, `statut = 'actif'`
and insert it; any store error is returned unchanged.  The period bounds
come from date-fns (`startOfMonth`/`endOfMonth`), an external collaborator,
so they are taken as the arguments `dateDebut`/`dateFin`. -/
def createCycle (db : DB) (userId : String) (salaire : ℚ) (annee mois : Int)
    (totalCharges : ℚ) (devise : Devise) (newId : String) (dateDebut dateFin : ℚ) :
    Except Err CycleMensuel × DB :=
  let newCycle : CycleMensuel :=
    { id := newId, user_id := userId, annee := annee, mois := mois,
      salaire_reel := salaire, total_charges := totalCharges,
      total_depenses := 0, reste := salaire - totalCharges,
      statut := .actif, devise := devise,
      date_debut := dateDebut, date_fin := dateFin }
  insertCycle db newCycle

/-- `closeCycle` (cycles service): fetch the cycle, fetch the user's active
charges (`chargesFetchFails` models that fetch failing), recompute
`total_charges` as their live sum and `reste` from it, then persist
`statut = 'cloture'`, `total_charges` and `reste` in one update
(`updateFails` models the update failing).  The source never checks the
cycle's current status. -/
def closeCycle (db : DB) (cycleId : String) (chargesFetchFails : Bool)
    (updateFails : Bool) : Except Err CycleMensuel × DB :=
  match findCycle db cycleId with
  | none => (.error ⟨"Error fetching cycle to close"⟩, db)
  | some currentCycle =>
    if chargesFetchFails then (.error ⟨"Error fetching charges for closure"⟩, db)
    else
      let totalCharges := totalChargesActives db currentCycle.user_id
      let reste := currentCycle.salaire_reel - totalCharges - currentCycle.total_depenses
      if updateFails then (.error ⟨"Error closing cycle"⟩, db)
      else
        let db1 := applyCycleUpdate db cycleId
          (fun c => { c with statut := .cloture, total_charges := totalCharges, reste := reste })
        (.ok { currentCycle with statut := .cloture, total_charges := totalCharges, reste := reste }, db1)

/-- Partial update payload for `updateCycle`; `none` means the field is
absent from the caller's `updates` object. -/
structure CycleUpdates where
  salaire_reel : Option ℚ := none
  total_charges : Option ℚ := none
  total_depenses : Option ℚ := none
  reste : Option ℚ := none
  statut : Option Statut := none
deriving DecidableEq, Repr

/-- Merge an update payload into a stored cycle row (fields present in the
payload override the stored values). -/
def mergeCycleUpdates (u : CycleUpdates) (c : CycleMensuel) : CycleMensuel :=
  { c with
    salaire_reel := u.salaire_reel.getD c.salaire_reel,
    total_charges := u.total_charges.getD c.total_charges,
    total_depenses := u.total_depenses.getD c.total_depenses,
    reste := u.reste.getD c.reste,
    statut := u.statut.getD c.statut }

/-- `updateCycle` (cycles service): when any of `salaire_reel`,
`total_charges`, `total_depenses` is present in the update, fetch the current
row (`currentFetchFails` models that fetch failing, whose error the source
silently drops) and overwrite `updates.reste` with the recomputed value from
the merged fields; then apply the update by id (`.single()` errors when the
row is absent). -/
def updateCycle (db : DB) (cycleId : String) (updates : CycleUpdates)
    (currentFetchFails : Bool) : Except Err CycleMensuel × DB :=
  let updates1 :=
    if updates.salaire_reel.isSome || updates.total_charges.isSome || updates.total_depenses.isSome then
      if currentFetchFails then updates
      else
        match findCycle db cycleId with
        | none => updates
        | some current =>
          let salaire := updates.salaire_reel.getD current.salaire_reel
          let charges := updates.total_charges.getD current.total_charges
          let depenses := updates.total_depenses.getD current.total_depenses
          { updates with reste := some (salaire - charges - depenses) }
    else updates
  match findCycle db cycleId with
  | none => (.error ⟨"Error updating cycle"⟩, db)
  | some c0 =>
    let db1 : DB :=
      { db with cycles :=
          db.cycles.map (fun c => if c.id == cycleId then mergeCycleUpdates updates1 c else c) }
    (.ok (mergeCycleUpdates updates1 c0), db1)

/-- `calculerReste` (src/lib/calculations.ts). -/
def calculerReste (cycle : CycleMensuel) : ℚ :=
  cycle.salaire_reel - cycle.total_charges - cycle.total_depenses

/-- `calculerPourcentageUtilise` (src/lib/calculations.ts): guarded on
`salaire === 0`. -/
def calculerPourcentageUtilise (salaire charges depenses : ℚ) : ℚ :=
  if salaire = 0 then 0 else (charges + depenses) / salaire * 100

/-- `calculerTauxEpargne` (src/lib/calculations.ts): guarded on `salaire === 0`. -/
def calculerTauxEpargne (reste salaire : ℚ) : ℚ :=
  if salaire = 0 then 0 else reste / salaire * 100

/-- Milliseconds per day, `1000 * 60 * 60 * 24` in `getStatsMensuel`. -/
def msParJour : ℚ := 1000 * 60 * 60 * 24

/-- `totalJours` in `getStatsMensuel`: `Math.ceil((fin - debut) / msParJour)`. -/
def totalJours (cycle : CycleMensuel) : Int :=
  ⌈(cycle.date_fin - cycle.date_debut) / msParJour⌉

/-- `joursEcoules` in `getStatsMensuel`: elapsed days clamped to 0. -/
def joursEcoules (cycle : CycleMensuel) (today : ℚ) : Int :=
  max 0 ⌈(today - cycle.date_debut) / msParJour⌉

/-- `joursRestants` in `getStatsMensuel`: remaining days clamped to 0. -/
def joursRestants (cycle : CycleMensuel) (today : ℚ) : Int :=
  max 0 (totalJours cycle - joursEcoules cycle today)

/-- `StatsMensuel` (stats service). -/
structure StatsMensuel where
  salaire : ℚ
  total_charges : ℚ
  total_depenses : ℚ
  reste : ℚ
  pourcentage_utilise : ℚ
  taux_epargne : ℚ
  depenses_par_jour : ℚ
  jours_restants : Int
  budget_journalier_restant : ℚ
deriving DecidableEq, Repr

/-- `getStatsMensuel` (stats service), as a function of the fetched cycle and
the current timestamp (`new Date().getTime()`). -/
def getStatsMensuel (cycle : CycleMensuel) (today : ℚ) : StatsMensuel :=
  let totalUtilise := cycle.total_charges + cycle.total_depenses
  let pourcentageUtilise := if 0 < cycle.salaire_reel then totalUtilise / cycle.salaire_reel * 100 else 0
  let tauxEpargne := if 0 < cycle.salaire_reel then cycle.reste / cycle.salaire_reel * 100 else 0
  let je := joursEcoules cycle today
  let jr := joursRestants cycle today
  let depensesParJour := if 0 < je then cycle.total_depenses / (je : ℚ) else 0
  let budgetJournalierRestant := if 0 < jr then cycle.reste / (jr : ℚ) else cycle.reste
  { salaire := cycle.salaire_reel,
    total_charges := cycle.total_charges,
    total_depenses := cycle.total_depenses,
    reste := cycle.reste,
    pourcentage_utilise := pourcentageUtilise,
    taux_epargne := tauxEpargne,
    depenses_par_jour := depensesParJour,
    jours_restants := jr,
    budget_journalier_restant := budgetJournalierRestant }

/-- One row of `getDepensesParCategorie` output (the fields the comparison
reads: id, name, summed total). -/
structure CatStat where
  categorie_id : String
  categorie_nom : String
  total : ℚ
deriving DecidableEq, Repr

/-- One entry of the rising/falling category lists. -/
structure CatVariation where
  categorie_nom : String
  variation : ℚ
deriving DecidableEq, Repr

/-- `ComparaisonMois` (stats service). -/
structure ComparaisonMois where
  cycle_actuel : CycleMensuel
  cycle_precedent : CycleMensuel
  variation_depenses : ℚ
  variation_reste : ℚ
  categories_en_hausse : List CatVariation
  categories_en_baisse : List CatVariation
deriving DecidableEq, Repr

/-- Per-category variation in `getComparaisonMois`: percentage change of the
summed total, guarded to 0 unless the prior total is positive. -/
def catVariation (catActuel catPrecedent : CatStat) : ℚ :=
  if 0 < catPrecedent.total then
    (catActuel.total - catPrecedent.total) / catPrecedent.total * 100
  else 0

/-- The matched pairs of the `statsActuel.forEach` loop in
`getComparaisonMois`: for each current-cycle category, look up the same
category id in the prior cycle's stats (categories absent from either side
are skipped) and attach its variation. -/
def matchedVariations (statsActuel statsPrecedent : List CatStat) : List (CatStat × ℚ) :=
  statsActuel.filterMap (fun catActuel =>
    match statsPrecedent.find? (fun c => c.categorie_id == catActuel.categorie_id) with
    | some catPrecedent => some (catActuel, catVariation catActuel catPrecedent)
    | none => none)

/-- The `.sort((a, b) => b.variation - a.variation)` step: stable sort,
descending by variation. -/
def sortDescByVariation (l : List CatVariation) : List CatVariation :=
  l.mergeSort (fun a b => decide (b.variation ≤ a.variation))

/-- `getComparaisonMois` (stats service), as a function of the two fetched
cycles and the two per-category stat lists (the outputs of
`getDepensesParCategorie` for each cycle).  Overall variations are guarded to
0 unless the prior value is positive; matched categories with variation > 5
go to the rising list, those with variation < -5 to the falling list with the
absolute value, both sorted descending. -/
def getComparaisonMois (cycleActuel cyclePrecedent : CycleMensuel)
    (statsActuel statsPrecedent : List CatStat) : ComparaisonMois :=
  let variationDepenses :=
    if 0 < cyclePrecedent.total_depenses then
      (cycleActuel.total_depenses - cyclePrecedent.total_depenses) / cyclePrecedent.total_depenses * 100
    else 0
  let variationReste :=
    if 0 < cyclePrecedent.reste then
      (cycleActuel.reste - cyclePrecedent.reste) / cyclePrecedent.reste * 100
    else 0
  let m := matchedVariations statsActuel statsPrecedent
  let hausse := (m.filter (fun p => decide (5 < p.2))).map
    (fun p => CatVariation.mk p.1.categorie_nom p.2)
  let baisse := (m.filter (fun p => decide (p.2 < -5))).map
    (fun p => CatVariation.mk p.1.categorie_nom |p.2|)
  { cycle_actuel := cycleActuel,
    cycle_precedent := cyclePrecedent,
    variation_depenses := variationDepenses,
    variation_reste := variationReste,
    categories_en_hausse := sortDescByVariation hausse,
    categories_en_baisse := sortDescByVariation baisse }

/-! ## Helper lemmas -/

/-- Updating the rows matching an id rewrites exactly the row `find?` returns,
provided the update preserves the id. -/
theorem find?_map_updateById (l : List CycleMensuel) (cid : String)
    (f : CycleMensuel → CycleMensuel) (hf : ∀ c, (f c).id = c.id) :
    (l.map (fun c => if c.id == cid then f c else c)).find? (fun c => c.id == cid)
      = (l.find? (fun c => c.id == cid)).map f := by
  induction l with
  | nil => rfl
  | cons c cs ih =>
    cases h : (c.id == cid) with
    | true =>
      have h2 : ((f c).id == cid) = true := by rw [hf c]; exact h
      rw [List.map_cons, if_pos h,
        List.find?_cons_of_pos (p := fun c : CycleMensuel => c.id == cid) _ h2,
        List.find?_cons_of_pos (p := fun c : CycleMensuel => c.id == cid) _ h, Option.map_some']
    | false =>
      have h2 : ¬((c.id == cid) = true) := by simp [h]
      rw [List.map_cons, if_neg h2,
        List.find?_cons_of_neg (p := fun c : CycleMensuel => c.id == cid) _ h2,
        List.find?_cons_of_neg (p := fun c : CycleMensuel => c.id == cid) _ h2, ih]

/-- `findCycle` after `applyCycleUpdate`, for id-preserving updates. -/
theorem findCycle_applyCycleUpdate (db : DB) (cid : String)
    (f : CycleMensuel → CycleMensuel) (hf : ∀ c, (f c).id = c.id) :
    findCycle (applyCycleUpdate db cid f) cid = (findCycle db cid).map f :=
  find?_map_updateById db.cycles cid f hf

/-- `getTotalDepenses` only reads the depenses table, which `applyCycleUpdate`
leaves untouched. -/
theorem getTotalDepenses_applyCycleUpdate (db : DB) (cid : String)
    (f : CycleMensuel → CycleMensuel) (cid' : String) :
    getTotalDepenses (applyCycleUpdate db cid f) cid' = getTotalDepenses db cid' :=
  rfl

/-- The invariant of the spec: the cycle row fetched by id carries
`total_depenses` equal to the sum of its expense amounts, and
`reste = salaire_reel - total_charges - total_depenses`. -/
def cycleInvariant (db : DB) (cycleId : String) : Prop :=
  ∀ c, findCycle db cycleId = some c →
    c.total_depenses = getTotalDepenses db cycleId ∧
    c.reste = c.salaire_reel - c.total_charges - c.total_depenses

/-- When the cycle is absent, a refresh is a no-op. -/
theorem updateCycleTotalDepenses_none (db : DB) (cid : String)
    (h0 : findCycle db cid = none) :
    updateCycleTotalDepenses db cid ⟨false, false, false⟩ = db := by
  unfold updateCycleTotalDepenses
  rw [h0]
  rfl

/-- Characterization of a fully successful refresh: the fetched cycle's
`total_depenses` and `reste` are overwritten from the current expense sum. -/
theorem updateCycleTotalDepenses_some (db : DB) (cid : String) (cycle : CycleMensuel)
    (h0 : findCycle db cid = some cycle) :
    updateCycleTotalDepenses db cid ⟨false, false, false⟩
      = applyCycleUpdate db cid (fun c =>
          { c with total_depenses := getTotalDepenses db cid,
                   reste := cycle.salaire_reel - cycle.total_charges - getTotalDepenses db cid }) := by
  unfold updateCycleTotalDepenses
  rw [h0]
  rfl

/-- A fully successful aggregate refresh establishes the invariant on the
refreshed cycle. -/
theorem updateCycleTotalDepenses_invariant (db : DB) (cid : String) :
    cycleInvariant (updateCycleTotalDepenses db cid ⟨false, false, false⟩) cid := by
  intro c hc
  cases h0 : findCycle db cid with
  | none =>
    rw [updateCycleTotalDepenses_none db cid h0] at hc
    rw [hc] at h0
    cases h0
  | some cycle =>
    rw [updateCycleTotalDepenses_some db cid cycle h0] at hc ⊢
    have hfind := findCycle_applyCycleUpdate db cid
      (fun x =>
        { x with
          total_depenses := getTotalDepenses db cid,
          reste := cycle.salaire_reel - cycle.total_charges - getTotalDepenses db cid })
      (fun x => rfl)
    rw [hfind, h0, Option.map_some'] at hc
    injection hc with hc
    subst hc
    rw [getTotalDepenses_applyCycleUpdate]
    exact ⟨rfl, rfl⟩

/-- Mapping a montant- and cycle-preserving rewrite over the depenses table
does not change a cycle's expense total. -/
theorem totalList_map_keeping (g : Depense → Depense) (cid : String)
    (hm : ∀ d, (g d).montant = d.montant) (hc : ∀ d, (g d).cycle_id = d.cycle_id) :
    ∀ (l : List Depense) (acc : ℚ),
      (((l.map g).filter (fun d => d.cycle_id == cid)).map (fun d => d.montant)).foldl (· + ·) acc
      = ((l.filter (fun d => d.cycle_id == cid)).map (fun d => d.montant)).foldl (· + ·) acc := by
  intro l
  induction l with
  | nil => intro acc; rfl
  | cons d ds ih =>
    intro acc
    cases h : (d.cycle_id == cid) with
    | true =>
      have hg : ((g d).cycle_id == cid) = true := by rw [hc d]; exact h
      simp only [List.map_cons, List.filter_cons, h, hg, if_true, List.foldl_cons, hm d]
      exact ih (acc + d.montant)
    | false =>
      have hg : ((g d).cycle_id == cid) = false := by rw [hc d]; exact h
      simp only [List.map_cons, List.filter_cons, h, hg, Bool.false_eq_true, if_false]
      exact ih acc

/-- Characterization of `deleteDepense` when the row exists and the
pre-fetch succeeds. -/
theorem deleteDepense_found (db : DB) (did : String) (d : Depense) (rf : RefreshFailures)
    (hd : findDepense db did = some d) :
    deleteDepense db did false rf
      = (.ok d, updateCycleTotalDepenses
          { db with depenses := db.depenses.filter (fun x => !(x.id == did)) } d.cycle_id rf) := by
  unfold deleteDepense
  rw [hd]
  rfl

/-- Characterization of `updateDepense` when the row exists and the update
carries a `montant`. -/
theorem updateDepense_found_montant (db : DB) (did : String) (d : Depense)
    (updates : DepenseUpdates) (rf : RefreshFailures) (m : ℚ)
    (hd : findDepense db did = some d) (hm : updates.montant = some m) :
    updateDepense db did updates rf
      = (.ok (mergeDepenseUpdates updates d), updateCycleTotalDepenses
          { db with depenses := db.depenses.map (fun x => if x.id == did then mergeDepenseUpdates updates x else x) }
          d.cycle_id rf) := by
  unfold updateDepense
  rw [hd, hm]
  rfl

/-- Characterization of `updateDepense` when the row exists and the update
carries no `montant`: no refresh is triggered. -/
theorem updateDepense_found_noMontant (db : DB) (did : String) (d : Depense)
    (updates : DepenseUpdates) (rf : RefreshFailures)
    (hd : findDepense db did = some d) (hm : updates.montant = none) :
    updateDepense db did updates rf
      = (.ok (mergeDepenseUpdates updates d),
         { db with depenses := db.depenses.map (fun x => if x.id == did then mergeDepenseUpdates updates x else x) }) := by
  unfold updateDepense
  rw [hd, hm]

/-! ## C1 -/

/-- C1: after an expense create, update or delete whose primary write and
whose triggered aggregate refresh both settle successfully, the owning
cycle's stored `total_depenses` equals the sum of the cycle's expense
amounts and its stored `reste` equals
`salaire_reel - total_charges - total_depenses`.  An update without a
`montant` field triggers no refresh and preserves the invariant. -/
theorem expense_mutations_keep_cycle_invariant
    (db : DB) (userId cycleId newId did : String) (form : DepenseFormData)
    (updates : DepenseUpdates) :
    cycleInvariant (createDepense db userId cycleId form newId false ⟨false, false, false⟩).2 cycleId
    ∧ (∀ d, findDepense db did = some d →
        cycleInvariant (deleteDepense db did false ⟨false, false, false⟩).2 d.cycle_id)
    ∧ (∀ d m, findDepense db did = some d → updates.montant = some m →
        cycleInvariant (updateDepense db did updates ⟨false, false, false⟩).2 d.cycle_id)
    ∧ (∀ d, findDepense db did = some d → updates.montant = none →
        cycleInvariant db d.cycle_id →
        cycleInvariant (updateDepense db did updates ⟨false, false, false⟩).2 d.cycle_id) := by
  refine ⟨?_, ?_, ?_, ?_⟩
  · exact updateCycleTotalDepenses_invariant
      { db with depenses := db.depenses ++ [⟨newId, userId, cycleId, form.montant, form.categorie_id⟩] }
      cycleId
  · intro d hd
    rw [deleteDepense_found db did d ⟨false, false, false⟩ hd]
    exact updateCycleTotalDepenses_invariant _ d.cycle_id
  · intro d m hd hm
    rw [updateDepense_found_montant db did d updates ⟨false, false, false⟩ m hd hm]
    exact updateCycleTotalDepenses_invariant _ d.cycle_id
  · intro d hd hm hInv
    rw [updateDepense_found_noMontant db did d updates ⟨false, false, false⟩ hd hm]
    intro c hc
    have hgt : getTotalDepenses
        { db with depenses := db.depenses.map (fun x => if x.id == did then mergeDepenseUpdates updates x else x) }
        d.cycle_id = getTotalDepenses db d.cycle_id :=
      totalList_map_keeping _ d.cycle_id
        (fun d0 => by
          by_cases h : (d0.id == did) = true
          · simp [h, mergeDepenseUpdates, hm]
          · simp [h])
        (fun d0 => by
          by_cases h : (d0.id == did) = true
          · simp [h, mergeDepenseUpdates]
          · simp [h])
        db.depenses 0
    have hprev := hInv c hc
    exact ⟨hprev.1.trans hgt.symm, hprev.2⟩

/-- Concrete database used by the witnesses: one active cycle satisfying the
invariant, one active and one inactive charge, one recorded depense. -/
def cW : CycleMensuel :=
  { id := "c1", user_id := "u1", annee := 2025, mois := 3,
    salaire_reel := 3000, total_charges := 500, total_depenses := 450,
    reste := 2050, statut := .actif, devise := .EUR,
    date_debut := 0, date_fin := 100 * msParJour }

/-- Concrete database used by the witnesses. -/
def dbW : DB :=
  { cycles := [cW],
    charges := [⟨"ch1", "u1", 800, "cat1", true⟩, ⟨"ch2", "u1", 50, "cat1", false⟩],
    depenses := [⟨"d1", "u1", "c1", 450, "cat1"⟩] }

/-- Witness for C1 at a concrete database. -/
theorem expense_mutations_keep_cycle_invariant_witness :
    cycleInvariant (createDepense dbW "u1" "c1" ⟨25, "cat1"⟩ "d9" false ⟨false, false, false⟩).2 "c1"
    ∧ cycleInvariant (deleteDepense dbW "d1" false ⟨false, false, false⟩).2 "c1"
    ∧ cycleInvariant (updateDepense dbW "d1" ⟨some 60, none⟩ ⟨false, false, false⟩).2 "c1"
    ∧ cycleInvariant (updateDepense dbW "d1" ⟨none, some "cat2"⟩ ⟨false, false, false⟩).2 "c1" := by
  have hfind : findDepense dbW "d1" = some ⟨"d1", "u1", "c1", 450, "cat1"⟩ := rfl
  have hprior : cycleInvariant dbW "c1" := by
    intro c hc
    have : c = cW := by
      simp only [findCycle, dbW, List.find?] at hc
      simp only [show (cW.id == "c1") = true from rfl] at hc
      exact (Option.some_inj.mp hc).symm
    subst this
    constructor
    · norm_num [getTotalDepenses, dbW, cW]
    · norm_num [cW]
  refine ⟨(expense_mutations_keep_cycle_invariant dbW "u1" "c1" "d9" "d1" ⟨25, "cat1"⟩ ⟨none, none⟩).1,
    (expense_mutations_keep_cycle_invariant dbW "u1" "c1" "d9" "d1" ⟨25, "cat1"⟩ ⟨none, none⟩).2.1
      ⟨"d1", "u1", "c1", 450, "cat1"⟩ hfind,
    (expense_mutations_keep_cycle_invariant dbW "u1" "c1" "d9" "d1" ⟨25, "cat1"⟩ ⟨some 60, none⟩).2.2.1
      ⟨"d1", "u1", "c1", 450, "cat1"⟩ 60 hfind rfl,
    (expense_mutations_keep_cycle_invariant dbW "u1" "c1" "d9" "d1" ⟨25, "cat1"⟩ ⟨none, some "cat2"⟩).2.2.2
      ⟨"d1", "u1", "c1", 450, "cat1"⟩ hfind rfl hprior⟩

/-! ## C2 -/

/-- C2: creating a cycle for a (user, year, month) that already has one
fails with the store's duplicate-key error — which the duplicate-cycle
predicate the repository's callers use recognizes, while a generic storage
failure message is not recognized — and the database is returned unchanged:
no new cycle record is persisted. -/
theorem createCycle_duplicate_fails (db : DB) (userId : String) (salaire : ℚ)
    (annee mois : Int) (totalCharges : ℚ) (devise : Devise) (newId : String)
    (dateDebut dateFin : ℚ)
    (hdup : ∃ c ∈ db.cycles, c.user_id = userId ∧ c.annee = annee ∧ c.mois = mois) :
    (∃ e, createCycle db userId salaire annee mois totalCharges devise newId dateDebut dateFin
        = (.error e, db) ∧ isDuplicateKeyError e = true)
    ∧ isDuplicateKeyError ⟨"Error creating cycle"⟩ = false := by
  obtain ⟨c0, hc0, h1, h2, h3⟩ := hdup
  have hany : db.cycles.any
      (fun x => x.user_id == userId && x.annee == annee && x.mois == mois) = true := by
    rw [List.any_eq_true]
    exact ⟨c0, hc0, by simp [h1, h2, h3]⟩
  constructor
  · refine ⟨⟨"duplicate key value violates unique constraint (code 23505)"⟩, ?_, by decide⟩
    unfold createCycle insertCycle
    rw [if_pos hany]
  · decide

/-- Witness for C2: `dbW` already holds a cycle for ("u1", 2025, 3). -/
theorem createCycle_duplicate_fails_witness :
    (∃ e, createCycle dbW "u1" 100 2025 3 0 .EUR "c9" 0 0 = (.error e, dbW)
        ∧ isDuplicateKeyError e = true)
    ∧ isDuplicateKeyError ⟨"Error creating cycle"⟩ = false :=
  createCycle_duplicate_fails dbW "u1" 100 2025 3 0 .EUR "c9" 0 0
    ⟨cW, by simp [dbW], rfl, rfl, rfl⟩

/-! ## C3 -/

/-- Characterization of `closeCycle` on any existing cycle when both store
calls succeed: the status is never consulted; live charges are recomputed
and the row overwritten. -/
theorem closeCycle_success_eq (db : DB) (cid : String) (c : CycleMensuel)
    (h : findCycle db cid = some c) :
    closeCycle db cid false false
      = (Except.ok
          { c with
            statut := .cloture,
            total_charges := totalChargesActives db c.user_id,
            reste := c.salaire_reel - totalChargesActives db c.user_id - c.total_depenses },
         applyCycleUpdate db cid (fun c0 =>
          { c0 with
            statut := .cloture,
            total_charges := totalChargesActives db c.user_id,
            reste := c.salaire_reel - totalChargesActives db c.user_id - c.total_depenses })) := by
  unfold closeCycle
  rw [h]
  rfl

/-- The closed cycle in the counterexample database: its `total_charges`
were frozen at 100 at closure time, while the live active charge is now 999. -/
def cClosedW : CycleMensuel :=
  { id := "c1", user_id := "u1", annee := 2025, mois := 2,
    salaire_reel := 3000, total_charges := 100, total_depenses := 450,
    reste := 2450, statut := .cloture, devise := .EUR,
    date_debut := 0, date_fin := 100 * msParJour }

/-- Counterexample database for C3: a single already-closed cycle. -/
def dbClosedW : DB :=
  { cycles := [cClosedW],
    charges := [⟨"ch1", "u1", 999, "cat1", true⟩],
    depenses := [⟨"d1", "u1", "c1", 450, "cat1"⟩] }

/-- C3 counterexample: calling `closeCycle` on the already-closed cycle is
not rejected — it returns success — and it re-runs the live-charges
recomputation, overwriting the frozen `total_charges` (100) with the current
live sum (999) and recomputing `reste`. -/
theorem closeCycle_closed_not_rejected :
    (closeCycle dbClosedW "c1" false false).1
      = Except.ok { cClosedW with statut := .cloture, total_charges := 999, reste := 1551 }
    ∧ (findCycle (closeCycle dbClosedW "c1" false false).2 "c1").map (fun c => c.total_charges)
      = some 999 := by
  constructor
  · norm_num [closeCycle, findCycle, dbClosedW, cClosedW, totalChargesActives, chargesActives]
  · norm_num [closeCycle, findCycle, applyCycleUpdate, dbClosedW, cClosedW,
      totalChargesActives, chargesActives]

/-- C3 amended: `closeCycle` performs no status check, so on an
already-closed cycle it succeeds, re-running the live-charges recomputation
and overwriting the previously frozen `total_charges` and `reste` with
freshly recomputed values (the status simply stays closed). -/
theorem closeCycle_ignores_closed_status (db : DB) (cid : String) (c : CycleMensuel)
    (h : findCycle db cid = some c) (hclosed : c.statut = .cloture) :
    closeCycle db cid false false
      = (Except.ok
          { c with
            statut := .cloture,
            total_charges := totalChargesActives db c.user_id,
            reste := c.salaire_reel - totalChargesActives db c.user_id - c.total_depenses },
         applyCycleUpdate db cid (fun c0 =>
          { c0 with
            statut := .cloture,
            total_charges := totalChargesActives db c.user_id,
            reste := c.salaire_reel - totalChargesActives db c.user_id - c.total_depenses })) :=
  closeCycle_success_eq db cid c h

/-- Witness for the amended C3 at the concrete closed cycle. -/
theorem closeCycle_ignores_closed_status_witness :
    closeCycle dbClosedW "c1" false false
      = (Except.ok
          { cClosedW with
            statut := .cloture,
            total_charges := totalChargesActives dbClosedW cClosedW.user_id,
            reste := cClosedW.salaire_reel - totalChargesActives dbClosedW cClosedW.user_id
              - cClosedW.total_depenses },
         applyCycleUpdate dbClosedW "c1" (fun c0 =>
          { c0 with
            statut := .cloture,
            total_charges := totalChargesActives dbClosedW cClosedW.user_id,
            reste := cClosedW.salaire_reel - totalChargesActives dbClosedW cClosedW.user_id
              - cClosedW.total_depenses })) :=
  closeCycle_ignores_closed_status dbClosedW "c1" cClosedW rfl rfl

/-! ## C4 -/

/-- C4: closing an existing active cycle persists `total_charges` as the
live sum of the user's currently-active fixed charges, `reste` as
`salaire_reel` minus that recomputed sum minus `total_depenses`, and status
closed; the returned record and the stored record agree. -/
theorem closeCycle_active_freezes_live_totals (db : DB) (cid : String) (c : CycleMensuel)
    (h : findCycle db cid = some c) (hactif : c.statut = .actif) :
    ∃ c', (closeCycle db cid false false).1 = Except.ok c'
      ∧ findCycle (closeCycle db cid false false).2 cid = some c'
      ∧ c'.total_charges = totalChargesActives db c.user_id
      ∧ c'.reste = c.salaire_reel - totalChargesActives db c.user_id - c.total_depenses
      ∧ c'.statut = .cloture := by
  rw [closeCycle_success_eq db cid c h]
  refine ⟨_, rfl, ?_, rfl, rfl, rfl⟩
  have hfc := findCycle_applyCycleUpdate db cid
    (fun c0 =>
      { c0 with
        statut := .cloture,
        total_charges := totalChargesActives db c.user_id,
        reste := c.salaire_reel - totalChargesActives db c.user_id - c.total_depenses })
    (fun c0 => rfl)
  rw [hfc, h, Option.map_some']

/-- Witness for C4: the spec's worked example — income 3000, live
active-charges sum 800 (the stored snapshot was 500), expenses 450 — yields
total_charges 800, reste 1750, status closed. -/
theorem closeCycle_active_freezes_live_totals_witness :
    ∃ c', (closeCycle dbW "c1" false false).1 = Except.ok c'
      ∧ c'.total_charges = 800 ∧ c'.reste = 1750 ∧ c'.statut = .cloture := by
  obtain ⟨c', h1, _, h3, h4, h5⟩ :=
    closeCycle_active_freezes_live_totals dbW "c1" cW rfl rfl
  have hT : totalChargesActives dbW "u1" = 800 := by
    norm_num [totalChargesActives, chargesActives, dbW]
  refine ⟨c', h1, ?_, ?_, h5⟩
  · rw [h3, show cW.user_id = "u1" from rfl, hT]
  · rw [h4, show cW.user_id = "u1" from rfl, hT]
    norm_num [cW]

/-! ## C5 -/

/-- C5: when the live-charges fetch fails during `closeCycle`, the operation
returns an error and the database is returned entirely unchanged — no update
to status, `total_charges` or `reste` is issued, whatever the later update
flag would have been. -/
theorem closeCycle_chargesFetch_failure_aborts (db : DB) (cid : String) (c : CycleMensuel)
    (uf : Bool) (h : findCycle db cid = some c) :
    ∃ e, closeCycle db cid true uf = (Except.error e, db) := by
  unfold closeCycle
  rw [h]
  exact ⟨_, rfl⟩

/-- Witness for C5. -/
theorem closeCycle_chargesFetch_failure_aborts_witness :
    ∃ e, closeCycle dbW "c1" true false = (Except.error e, dbW) :=
  closeCycle_chargesFetch_failure_aborts dbW "c1" cW false rfl

/-! ## C6 -/

/-- Characterization of `updateCycle` when the row exists and at least one of
the three aggregate-relevant fields is present: the caller's `reste` is
overwritten with the server-side recomputation before the row is merged. -/
theorem updateCycle_recompute_eq (db : DB) (cid : String) (updates : CycleUpdates)
    (c0 : CycleMensuel) (h : findCycle db cid = some c0)
    (hcond : (updates.salaire_reel.isSome || updates.total_charges.isSome
      || updates.total_depenses.isSome) = true) :
    updateCycle db cid updates false
      = (Except.ok (mergeCycleUpdates
          { updates with reste := some (updates.salaire_reel.getD c0.salaire_reel
            - updates.total_charges.getD c0.total_charges
            - updates.total_depenses.getD c0.total_depenses) } c0),
         { db with cycles := db.cycles.map (fun c => if c.id == cid then mergeCycleUpdates
            { updates with reste := some (updates.salaire_reel.getD c0.salaire_reel
              - updates.total_charges.getD c0.total_charges
              - updates.total_depenses.getD c0.total_depenses) } c else c) }) := by
  unfold updateCycle
  rw [if_pos hcond, h]
  rfl

/-- C6: when an `updateCycle` payload contains any of `salaire_reel`,
`total_charges` or `total_depenses`, the `reste` persisted on the cycle is
recomputed from the merged values (explicit fields override stored ones,
absent fields keep the stored values), and any caller-supplied `reste` is
ignored: the operation behaves identically with the `reste` field removed
from the payload. -/
theorem updateCycle_recomputes_reste (db : DB) (cid : String) (updates : CycleUpdates)
    (c0 : CycleMensuel) (h : findCycle db cid = some c0)
    (hsome : updates.salaire_reel.isSome = true ∨ updates.total_charges.isSome = true
      ∨ updates.total_depenses.isSome = true) :
    (∀ cc, findCycle (updateCycle db cid updates false).2 cid = some cc →
        cc.reste = updates.salaire_reel.getD c0.salaire_reel
          - updates.total_charges.getD c0.total_charges
          - updates.total_depenses.getD c0.total_depenses)
    ∧ updateCycle db cid updates false
        = updateCycle db cid { updates with reste := none } false := by
  have hcond : (updates.salaire_reel.isSome || updates.total_charges.isSome
      || updates.total_depenses.isSome) = true := by
    rcases hsome with h1 | h1 | h1 <;> simp [h1]
  constructor
  · intro cc hcc
    rw [updateCycle_recompute_eq db cid updates c0 h hcond] at hcc
    have hfm := find?_map_updateById db.cycles cid
      (mergeCycleUpdates
        { updates with reste := some (updates.salaire_reel.getD c0.salaire_reel
          - updates.total_charges.getD c0.total_charges
          - updates.total_depenses.getD c0.total_depenses) })
      (fun c => rfl)
    have h' : db.cycles.find? (fun c => c.id == cid) = some c0 := h
    unfold findCycle at hcc
    rw [hfm, h', Option.map_some'] at hcc
    injection hcc with hcc
    subst hcc
    rfl
  · rw [updateCycle_recompute_eq db cid updates c0 h hcond,
      updateCycle_recompute_eq db cid { updates with reste := none } c0 h hcond]

/-- Witness for C6: updating `dbW`'s cycle with income 2000 and a bogus
caller-computed `reste` of 12345 persists `reste = 2000 - 500 - 450 = 1050`. -/
theorem updateCycle_recomputes_reste_witness :
    ∃ cc, findCycle (updateCycle dbW "c1"
        ⟨some 2000, none, none, some 12345, none⟩ false).2 "c1" = some cc
      ∧ cc.reste = 1050 := by
  have h := (updateCycle_recomputes_reste dbW "c1"
    ⟨some 2000, none, none, some 12345, none⟩ cW rfl (Or.inl rfl)).1
  have hf : findCycle (updateCycle dbW "c1"
      ⟨some 2000, none, none, some 12345, none⟩ false).2 "c1"
      = some (mergeCycleUpdates ⟨some 2000, none, none, some (2000 - 500 - 450), none⟩ cW) := rfl
  refine ⟨_, hf, ?_⟩
  rw [h _ hf]
  norm_num [cW]

/-! ## C7 -/

/-- A refresh whose sum fetch, cycle fetch or cycle update fails leaves the
database untouched (the source swallows all of these). -/
theorem updateCycleTotalDepenses_fail_eq (db : DB) (cid : String) (rf : RefreshFailures)
    (h : rf.totalFetch = true ∨ rf.cycleFetch = true ∨ rf.cycleUpdate = true) :
    updateCycleTotalDepenses db cid rf = db := by
  unfold updateCycleTotalDepenses
  by_cases h1 : rf.totalFetch = true
  · rw [if_pos h1]
  · rw [if_neg h1]
    by_cases h2 : rf.cycleFetch = true
    · rw [if_pos h2]
    · rw [if_neg h2]
      cases hfc : findCycle db cid with
      | none => rfl
      | some cycle =>
        rcases h with h | h | h
        · exact absurd h h1
        · exact absurd h h2
        · simp [h]

/-- Characterization of `createDepense` with a successful insert: the new
row is appended and the refresh runs on the grown database. -/
theorem createDepense_ok_eq (db : DB) (userId cycleId : String) (form : DepenseFormData)
    (newId : String) (rf : RefreshFailures) :
    createDepense db userId cycleId form newId false rf
      = (Except.ok ⟨newId, userId, cycleId, form.montant, form.categorie_id⟩,
         updateCycleTotalDepenses
           { db with depenses := db.depenses ++ [⟨newId, userId, cycleId, form.montant, form.categorie_id⟩] }
           cycleId rf) := rfl

/-- C7: when an expense create, update or delete's primary write succeeds
but the subsequent cycle-total refresh fails, the operation still returns
success carrying the written expense, and the cycles table (the cached
totals) is left exactly as before — stale until the next recompute. -/
theorem expense_write_ok_despite_refresh_failure
    (db : DB) (userId cycleId newId did : String) (form : DepenseFormData)
    (updates : DepenseUpdates) (rf : RefreshFailures)
    (hrf : rf.totalFetch = true ∨ rf.cycleFetch = true ∨ rf.cycleUpdate = true) :
    createDepense db userId cycleId form newId false rf
      = (Except.ok ⟨newId, userId, cycleId, form.montant, form.categorie_id⟩,
         { db with depenses := db.depenses ++ [⟨newId, userId, cycleId, form.montant, form.categorie_id⟩] })
    ∧ (∀ d, findDepense db did = some d →
        (deleteDepense db did false rf).1 = Except.ok d
        ∧ ((deleteDepense db did false rf).2).cycles = db.cycles)
    ∧ (∀ d m, findDepense db did = some d → updates.montant = some m →
        (updateDepense db did updates rf).1 = Except.ok (mergeDepenseUpdates updates d)
        ∧ ((updateDepense db did updates rf).2).cycles = db.cycles) := by
  refine ⟨?_, ?_, ?_⟩
  · rw [createDepense_ok_eq db userId cycleId form newId rf,
      updateCycleTotalDepenses_fail_eq _ _ rf hrf]
  · intro d hd
    rw [deleteDepense_found db did d rf hd, updateCycleTotalDepenses_fail_eq _ _ rf hrf]
    exact ⟨rfl, rfl⟩
  · intro d m hd hm
    rw [updateDepense_found_montant db did d updates rf m hd hm,
      updateCycleTotalDepenses_fail_eq _ _ rf hrf]
    exact ⟨rfl, rfl⟩

/-- Witness for C7 with a failing sum fetch (create) and a failing cycle
fetch (delete). -/
theorem expense_write_ok_despite_refresh_failure_witness :
    (createDepense dbW "u1" "c1" ⟨25, "cat1"⟩ "d9" false ⟨true, false, false⟩).1
      = Except.ok ⟨"d9", "u1", "c1", 25, "cat1"⟩
    ∧ ((createDepense dbW "u1" "c1" ⟨25, "cat1"⟩ "d9" false ⟨true, false, false⟩).2).cycles
      = dbW.cycles
    ∧ (deleteDepense dbW "d1" false ⟨false, true, false⟩).1
      = Except.ok ⟨"d1", "u1", "c1", 450, "cat1"⟩
    ∧ ((deleteDepense dbW "d1" false ⟨false, true, false⟩).2).cycles = dbW.cycles := by
  have hc := expense_write_ok_despite_refresh_failure dbW "u1" "c1" "d9" "d1"
    ⟨25, "cat1"⟩ ⟨some 60, none⟩ ⟨true, false, false⟩ (Or.inl rfl)
  have hd := expense_write_ok_despite_refresh_failure dbW "u1" "c1" "d9" "d1"
    ⟨25, "cat1"⟩ ⟨some 60, none⟩ ⟨false, true, false⟩ (Or.inr (Or.inl rfl))
  refine ⟨?_, ?_, ?_, ?_⟩
  · rw [hc.1]
  · rw [hc.1]
  · exact (hd.2.1 ⟨"d1", "u1", "c1", 450, "cat1"⟩ rfl).1
  · exact (hd.2.1 ⟨"d1", "u1", "c1", 450, "cat1"⟩ rfl).2

/-! ## C8 -/

/-- C8: the monthly summary never divides by the degenerate denominators —
with income 0 both `pourcentage_utilise` and `taux_epargne` are 0, with zero
elapsed days the per-day spend rate is 0, with zero remaining days the
remaining daily budget falls back to `reste` itself; the standalone
calculation helpers guard income 0 the same way. -/
theorem getStatsMensuel_division_guards (cycle : CycleMensuel) (today : ℚ)
    (charges depenses reste : ℚ) :
    (cycle.salaire_reel = 0 →
      (getStatsMensuel cycle today).pourcentage_utilise = 0
      ∧ (getStatsMensuel cycle today).taux_epargne = 0)
    ∧ (joursEcoules cycle today = 0 → (getStatsMensuel cycle today).depenses_par_jour = 0)
    ∧ (joursRestants cycle today = 0 →
        (getStatsMensuel cycle today).budget_journalier_restant = cycle.reste)
    ∧ calculerPourcentageUtilise 0 charges depenses = 0
    ∧ calculerTauxEpargne reste 0 = 0 := by
  refine ⟨?_, ?_, ?_, by simp [calculerPourcentageUtilise], by simp [calculerTauxEpargne]⟩
  · intro h
    constructor <;> simp [getStatsMensuel, h]
  · intro h
    simp [getStatsMensuel, h]
  · intro h
    simp [getStatsMensuel, h]

/-- A degenerate cycle for the C8 witness: income 0 and an empty period. -/
def cZeroW : CycleMensuel := { cW with salaire_reel := 0, date_debut := 0, date_fin := 0 }

/-- Witness for C8. -/
theorem getStatsMensuel_division_guards_witness :
    (getStatsMensuel cZeroW 0).pourcentage_utilise = 0
    ∧ (getStatsMensuel cZeroW 0).taux_epargne = 0
    ∧ (getStatsMensuel cZeroW 0).depenses_par_jour = 0
    ∧ (getStatsMensuel cZeroW 0).budget_journalier_restant = cZeroW.reste
    ∧ calculerPourcentageUtilise 0 500 450 = 0
    ∧ calculerTauxEpargne 2050 0 = 0 := by
  have h := getStatsMensuel_division_guards cZeroW 0 500 450 2050
  have hje : joursEcoules cZeroW 0 = 0 := by
    norm_num [joursEcoules, cZeroW, cW, msParJour]
  have hjr : joursRestants cZeroW 0 = 0 := by
    norm_num [joursRestants, totalJours, joursEcoules, cZeroW, cW, msParJour]
  exact ⟨(h.1 rfl).1, (h.1 rfl).2, h.2.1 hje, h.2.2.1 hjr, h.2.2.2.1, h.2.2.2.2⟩

/-! ## C9 -/

/-- Projection lemma: the rising list of the comparison. -/
theorem getComparaisonMois_hausse (ca cp : CycleMensuel) (sa sp : List CatStat) :
    (getComparaisonMois ca cp sa sp).categories_en_hausse
      = sortDescByVariation (((matchedVariations sa sp).filter (fun p => decide (5 < p.2))).map
          (fun p => CatVariation.mk p.1.categorie_nom p.2)) := rfl

/-- Projection lemma: the falling list of the comparison. -/
theorem getComparaisonMois_baisse (ca cp : CycleMensuel) (sa sp : List CatStat) :
    (getComparaisonMois ca cp sa sp).categories_en_baisse
      = sortDescByVariation (((matchedVariations sa sp).filter (fun p => decide (p.2 < -5))).map
          (fun p => CatVariation.mk p.1.categorie_nom |p.2|)) := rfl

/-- Projection lemma: overall expense variation. -/
theorem getComparaisonMois_vdep (ca cp : CycleMensuel) (sa sp : List CatStat) :
    (getComparaisonMois ca cp sa sp).variation_depenses
      = if 0 < cp.total_depenses then
          (ca.total_depenses - cp.total_depenses) / cp.total_depenses * 100
        else 0 := rfl

/-- Projection lemma: overall reste variation. -/
theorem getComparaisonMois_vreste (ca cp : CycleMensuel) (sa sp : List CatStat) :
    (getComparaisonMois ca cp sa sp).variation_reste
      = if 0 < cp.reste then (ca.reste - cp.reste) / cp.reste * 100 else 0 := rfl

/-- The descending sort keeps exactly the members of its input. -/
theorem mem_sortDescByVariation (x : CatVariation) (l : List CatVariation) :
    x ∈ sortDescByVariation l ↔ x ∈ l :=
  List.mem_mergeSort

/-- The descending sort really sorts: the output is pairwise descending by
variation. -/
theorem sortDescByVariation_pairwise (l : List CatVariation) :
    List.Pairwise (fun a b : CatVariation => b.variation ≤ a.variation) (sortDescByVariation l) := by
  have h := @List.sorted_mergeSort CatVariation
    (fun a b => decide (b.variation ≤ a.variation))
    (fun a b c hab hbc => by
      simp only [decide_eq_true_eq] at hab hbc ⊢
      exact le_trans hbc hab)
    (fun a b => by
      simp only [Bool.or_eq_true, decide_eq_true_eq]
      exact le_total b.variation a.variation)
    l
  exact h.imp (fun hab => by simpa using hab)

/-- C9: the month-over-month comparison guards every division — the overall
expense and reste variations are 0 whenever the prior value is 0, and the
per-category variation is computed with the same guard; every matched
category with variation above +5 appears in the rising list, every one with
variation below −5 appears in the falling list with the absolute value, a
matched category within ±5 appears in neither list, and both lists are
sorted descending by (absolute) variation magnitude. -/
theorem getComparaisonMois_guards_and_buckets (ca cp : CycleMensuel)
    (sa sp : List CatStat) :
    (cp.total_depenses = 0 → (getComparaisonMois ca cp sa sp).variation_depenses = 0)
    ∧ (cp.reste = 0 → (getComparaisonMois ca cp sa sp).variation_reste = 0)
    ∧ (∀ a p : CatStat, p.total = 0 → catVariation a p = 0)
    ∧ (∀ q ∈ matchedVariations sa sp, 5 < q.2 →
        CatVariation.mk q.1.categorie_nom q.2
          ∈ (getComparaisonMois ca cp sa sp).categories_en_hausse)
    ∧ (∀ q ∈ matchedVariations sa sp, q.2 < -5 →
        CatVariation.mk q.1.categorie_nom |q.2|
          ∈ (getComparaisonMois ca cp sa sp).categories_en_baisse)
    ∧ (∀ q ∈ matchedVariations sa sp, -5 ≤ q.2 → q.2 ≤ 5 →
        CatVariation.mk q.1.categorie_nom q.2
          ∉ (getComparaisonMois ca cp sa sp).categories_en_hausse
        ∧ CatVariation.mk q.1.categorie_nom |q.2|
          ∉ (getComparaisonMois ca cp sa sp).categories_en_baisse)
    ∧ List.Pairwise (fun a b : CatVariation => b.variation ≤ a.variation)
        (getComparaisonMois ca cp sa sp).categories_en_hausse
    ∧ List.Pairwise (fun a b : CatVariation => b.variation ≤ a.variation)
        (getComparaisonMois ca cp sa sp).categories_en_baisse := by
  refine ⟨?_, ?_, ?_, ?_, ?_, ?_, ?_, ?_⟩
  · intro h
    rw [getComparaisonMois_vdep, h]
    simp
  · intro h
    rw [getComparaisonMois_vreste, h]
    simp
  · intro a p hp
    unfold catVariation
    rw [hp]
    simp
  · intro q hq h5
    rw [getComparaisonMois_hausse, mem_sortDescByVariation]
    exact List.mem_map.mpr ⟨q, List.mem_filter.mpr ⟨hq, decide_eq_true h5⟩, rfl⟩
  · intro q hq h5
    rw [getComparaisonMois_baisse, mem_sortDescByVariation]
    exact List.mem_map.mpr ⟨q, List.mem_filter.mpr ⟨hq, decide_eq_true h5⟩, rfl⟩
  · intro q hq hlo hhi
    constructor
    · intro hmem
      rw [getComparaisonMois_hausse, mem_sortDescByVariation] at hmem
      obtain ⟨r, hr, heq⟩ := List.mem_map.mp hmem
      have hr5 : 5 < r.2 := of_decide_eq_true (List.mem_filter.mp hr).2
      have : r.2 = q.2 := congrArg CatVariation.variation heq
      linarith
    · intro hmem
      rw [getComparaisonMois_baisse, mem_sortDescByVariation] at hmem
      obtain ⟨r, hr, heq⟩ := List.mem_map.mp hmem
      have hr5 : r.2 < -5 := of_decide_eq_true (List.mem_filter.mp hr).2
      have habs : |r.2| = |q.2| := congrArg CatVariation.variation heq
      have hq5 : |q.2| ≤ 5 := abs_le.mpr ⟨hlo, hhi⟩
      have : (5 : ℚ) < |r.2| := by
        rw [abs_of_neg (by linarith)]
        linarith
      linarith
  · rw [getComparaisonMois_hausse]
    exact sortDescByVariation_pairwise _
  · rw [getComparaisonMois_baisse]
    exact sortDescByVariation_pairwise _

/-- Current-cycle fixture for the C9 witness (expenses 200, against a prior
cycle whose totals are 0). -/
def caW : CycleMensuel := { cW with total_depenses := 200, reste := 300 }

/-- Prior-cycle fixture for the C9 witness: zero expenses and zero reste. -/
def cpW : CycleMensuel := { cW with total_depenses := 0, reste := 0 }

/-- Current per-category stats for the C9 witness. -/
def saW : List CatStat := [⟨"cat1", "A", 210⟩, ⟨"cat2", "B", 40⟩, ⟨"cat3", "C", 100⟩]

/-- Prior per-category stats for the C9 witness: A rose 110%, B fell 60%,
C rose 100/49 % (within ±5). -/
def spW : List CatStat := [⟨"cat1", "A", 100⟩, ⟨"cat2", "B", 100⟩, ⟨"cat3", "C", 98⟩]

/-- Witness for C9: prior totals of 0 give variation 0 (not a division
fault), A lands in the rising list, B in the falling list with absolute
value 60, and C (within ±5%) in neither. -/
theorem getComparaisonMois_guards_and_buckets_witness :
    (getComparaisonMois caW cpW saW spW).variation_depenses = 0
    ∧ (getComparaisonMois caW cpW saW spW).variation_reste = 0
    ∧ CatVariation.mk "A" 110 ∈ (getComparaisonMois caW cpW saW spW).categories_en_hausse
    ∧ CatVariation.mk "B" 60 ∈ (getComparaisonMois caW cpW saW spW).categories_en_baisse
    ∧ CatVariation.mk "C" (100/49) ∉ (getComparaisonMois caW cpW saW spW).categories_en_hausse
    ∧ CatVariation.mk "C" |(100 : ℚ)/49| ∉ (getComparaisonMois caW cpW saW spW).categories_en_baisse := by
  have h := getComparaisonMois_guards_and_buckets caW cpW saW spW
  have v1 : catVariation ⟨"cat1", "A", 210⟩ ⟨"cat1", "A", 100⟩ = 110 := by
    norm_num [catVariation]
  have v2 : catVariation ⟨"cat2", "B", 40⟩ ⟨"cat2", "B", 100⟩ = -60 := by
    norm_num [catVariation]
  have v3 : catVariation ⟨"cat3", "C", 100⟩ ⟨"cat3", "C", 98⟩ = 100/49 := by
    norm_num [catVariation]
  have hML : matchedVariations saW spW
      = [⟨⟨"cat1", "A", 210⟩, 110⟩, ⟨⟨"cat2", "B", 40⟩, -60⟩,
         ⟨⟨"cat3", "C", 100⟩, 100/49⟩] := by
    have hML0 : matchedVariations saW spW
        = [⟨⟨"cat1", "A", 210⟩, catVariation ⟨"cat1", "A", 210⟩ ⟨"cat1", "A", 100⟩⟩,
           ⟨⟨"cat2", "B", 40⟩, catVariation ⟨"cat2", "B", 40⟩ ⟨"cat2", "B", 100⟩⟩,
           ⟨⟨"cat3", "C", 100⟩, catVariation ⟨"cat3", "C", 100⟩ ⟨"cat3", "C", 98⟩⟩] := rfl
    rw [hML0, v1, v2, v3]
  have hm1 : (⟨⟨"cat1", "A", 210⟩, 110⟩ : CatStat × ℚ) ∈ matchedVariations saW spW := by
    rw [hML]
    exact List.mem_cons_self _ _
  have hm2 : (⟨⟨"cat2", "B", 40⟩, -60⟩ : CatStat × ℚ) ∈ matchedVariations saW spW := by
    rw [hML]
    exact List.mem_cons_of_mem _ (List.mem_cons_self _ _)
  have hm3 : (⟨⟨"cat3", "C", 100⟩, 100/49⟩ : CatStat × ℚ) ∈ matchedVariations saW spW := by
    rw [hML]
    exact List.mem_cons_of_mem _ (List.mem_cons_of_mem _ (List.mem_cons_self _ _))
  have hB : CatVariation.mk "B" 60 = CatVariation.mk "B" |(-60 : ℚ)| := by
    norm_num
  refine ⟨h.1 rfl, h.2.1 rfl, h.2.2.2.1 _ hm1 (by norm_num), ?_, ?_, ?_⟩
  · rw [hB]
    exact h.2.2.2.2.1 _ hm2 (by norm_num)
  · exact (h.2.2.2.2.2.1 _ hm3 (by norm_num) (by norm_num)).1
  · exact (h.2.2.2.2.2.1 _ hm3 (by norm_num) (by norm_num)).2

/-! ## C10 -/

/-- C10: an `updateCycle` whose payload carries `reste` but none of
`salaire_reel`, `total_charges`, `total_depenses` persists the caller's
`reste` verbatim: the recompute branch never runs (whatever the outcome of
the current-row fetch), so the stored `reste` is exactly the supplied value. -/
theorem updateCycle_reste_passthrough (db : DB) (cid : String) (updates : CycleUpdates)
    (c0 : CycleMensuel) (r : ℚ) (cff : Bool)
    (h : findCycle db cid = some c0)
    (h1 : updates.salaire_reel = none) (h2 : updates.total_charges = none)
    (h3 : updates.total_depenses = none) (h4 : updates.reste = some r) :
    (updateCycle db cid updates cff).1 = Except.ok (mergeCycleUpdates updates c0)
    ∧ (∀ cc, findCycle (updateCycle db cid updates cff).2 cid = some cc → cc.reste = r)
    ∧ (mergeCycleUpdates updates c0).reste = r := by
  have hcond : ¬((updates.salaire_reel.isSome || updates.total_charges.isSome
      || updates.total_depenses.isSome) = true) := by
    simp [h1, h2, h3]
  have heq : updateCycle db cid updates cff
      = (Except.ok (mergeCycleUpdates updates c0),
         { db with cycles :=
            db.cycles.map (fun c => if c.id == cid then mergeCycleUpdates updates c else c) }) := by
    unfold updateCycle
    rw [if_neg hcond, h]
  refine ⟨by rw [heq], ?_, by simp [mergeCycleUpdates, h4]⟩
  intro cc hcc
  rw [heq] at hcc
  have hfm := find?_map_updateById db.cycles cid (mergeCycleUpdates updates) (fun c => rfl)
  have h' : db.cycles.find? (fun c => c.id == cid) = some c0 := h
  unfold findCycle at hcc
  rw [hfm, h', Option.map_some'] at hcc
  injection hcc with hcc
  subst hcc
  simp [mergeCycleUpdates, h4]

/-- Witness for C10: pushing `reste = 999` through `updateCycle` on `dbW`
stores 999 verbatim, which violates the reste invariant (the consistent
value would be 3000 − 500 − 450 = 2050). -/
theorem updateCycle_reste_passthrough_witness :
    ∃ cc, findCycle (updateCycle dbW "c1" ⟨none, none, none, some 999, none⟩ false).2 "c1"
        = some cc
      ∧ cc.reste = 999
      ∧ ¬(cc.reste = cc.salaire_reel - cc.total_charges - cc.total_depenses) := by
  have h := updateCycle_reste_passthrough dbW "c1" ⟨none, none, none, some 999, none⟩
    cW 999 false rfl rfl rfl rfl rfl
  have hf : findCycle (updateCycle dbW "c1" ⟨none, none, none, some 999, none⟩ false).2 "c1"
      = some (mergeCycleUpdates ⟨none, none, none, some 999, none⟩ cW) := rfl
  refine ⟨_, hf, h.2.1 _ hf, ?_⟩
  intro hbad
  rw [h.2.1 _ hf] at hbad
  norm_num [mergeCycleUpdates, cW] at hbad

end MoneyTracker
